import Mathlib

set_option maxRecDepth 8000

/-!
Shallow embedding of `src/call_foursquare.js`: a pipeline that turns a
free-text trip request into an itinerary by calling a generative-language
endpoint (preference extraction) and a places-search endpoint (venue lookup).
HTTP calls are modelled as oracle arguments of type `Except err response`;
the JavaScript runtime primitives used by the source (`JSON.parse`,
`String.prototype.replace`, `trim`, `indexOf`, `lastIndexOf`, `slice`,
`Array.prototype.filter(Boolean)`, `Promise.all`) are embedded as executable
Lean functions below.
-/

namespace CallFoursquare

/-- JSON values as produced by `JSON.parse`.  Numbers are restricted to
integers: every numeric literal appearing in this program's data
(durations, limits) is an integer, and no claim exercises fractional or
exponent-notation numbers. -/
inductive Json where
  | null : Json
  | bool (b : Bool) : Json
  | num (n : Int) : Json
  | str (s : String) : Json
  | arr (elems : List Json) : Json
  | obj (fields : List (String × Json)) : Json

/-- JSON insignificant whitespace characters. -/
def isJsonWs (c : Char) : Bool :=
  c = ' ' || c = '\t' || c = '\n' || c = '\r'

/-- Skip leading JSON whitespace. -/
def skipWs : List Char → List Char
  | [] => []
  | c :: cs => if isJsonWs c then skipWs cs else c :: cs

/-- Hexadecimal digit value, for \uXXXX escapes. -/
def hexVal (c : Char) : Option Nat :=
  if '0' ≤ c ∧ c ≤ '9' then some (c.toNat - 48)
  else if 'a' ≤ c ∧ c ≤ 'f' then some (c.toNat - 87)
  else if 'A' ≤ c ∧ c ≤ 'F' then some (c.toNat - 55)
  else none

/-- Parse the remainder of a JSON string literal (the opening quote already
consumed), accumulating characters in reverse. -/
def parseStringRest (acc : List Char) : List Char → Option (String × List Char)
  | [] => none
  | '"' :: rest => some (String.mk acc.reverse, rest)
  | '\\' :: esc :: rest =>
    match esc with
    | '"' => parseStringRest ('"' :: acc) rest
    | '\\' => parseStringRest ('\\' :: acc) rest
    | '/' => parseStringRest ('/' :: acc) rest
    | 'b' => parseStringRest (Char.ofNat 8 :: acc) rest
    | 'f' => parseStringRest (Char.ofNat 12 :: acc) rest
    | 'n' => parseStringRest ('\n' :: acc) rest
    | 'r' => parseStringRest ('\r' :: acc) rest
    | 't' => parseStringRest ('\t' :: acc) rest
    | 'u' =>
      match rest with
      | h1 :: h2 :: h3 :: h4 :: rest2 =>
        match hexVal h1, hexVal h2, hexVal h3, hexVal h4 with
        | some a, some b, some c, some d =>
          parseStringRest (Char.ofNat (((a * 16 + b) * 16 + c) * 16 + d) :: acc) rest2
        | _, _, _, _ => none
      | _ => none
    | _ => none
  | c :: rest => if c = '\\' then none else parseStringRest (c :: acc) rest

/-- Greedily take decimal digits from the front. -/
def takeDigits : List Char → List Char × List Char
  | [] => ([], [])
  | c :: cs =>
    if c.isDigit then
      let p := takeDigits cs
      (c :: p.1, p.2)
    else ([], c :: cs)

/-- Decimal digits to a natural number. -/
def digitsToNat (acc : Nat) : List Char → Nat
  | [] => acc
  | c :: cs => digitsToNat (acc * 10 + (c.toNat - 48)) cs

/-- Parse a nonnegative integer literal; fails if no digit is present. -/
def parseNat (cs : List Char) : Option (Nat × List Char) :=
  match takeDigits cs with
  | ([], _) => none
  | (ds, rest) => some (digitsToNat 0 ds, rest)

mutual

/-- Parse one JSON value (fueled recursion; the fuel supplied at top level
always suffices, so running out only ever coincides with malformed input). -/
def parseVal : Nat → List Char → Option (Json × List Char)
  | 0, _ => none
  | fuel + 1, cs =>
    match skipWs cs with
    | 'n' :: 'u' :: 'l' :: 'l' :: rest => some (Json.null, rest)
    | 't' :: 'r' :: 'u' :: 'e' :: rest => some (Json.bool true, rest)
    | 'f' :: 'a' :: 'l' :: 's' :: 'e' :: rest => some (Json.bool false, rest)
    | '"' :: rest =>
      match parseStringRest [] rest with
      | some (s, rest2) => some (Json.str s, rest2)
      | none => none
    | '[' :: rest =>
      match skipWs rest with
      | ']' :: rest2 => some (Json.arr [], rest2)
      | _ => parseElems fuel rest []
    | '{' :: rest =>
      match skipWs rest with
      | '}' :: rest2 => some (Json.obj [], rest2)
      | _ => parseMembers fuel rest []
    | '-' :: rest =>
      match parseNat rest with
      | some (n, rest2) => some (Json.num (-(n : Int)), rest2)
      | none => none
    | c :: rest =>
      if c.isDigit then
        match parseNat (c :: rest) with
        | some (n, rest2) => some (Json.num (n : Int), rest2)
        | none => none
      else none
    | [] => none

/-- Parse the elements of a non-empty JSON array (after the opening bracket). -/
def parseElems : Nat → List Char → List Json → Option (Json × List Char)
  | 0, _, _ => none
  | fuel + 1, cs, acc =>
    match parseVal fuel cs with
    | none => none
    | some (j, rest) =>
      match skipWs rest with
      | ',' :: rest2 => parseElems fuel rest2 (j :: acc)
      | ']' :: rest2 => some (Json.arr (j :: acc).reverse, rest2)
      | _ => none

/-- Parse the members of a non-empty JSON object (after the opening brace). -/
def parseMembers : Nat → List Char → List (String × Json) → Option (Json × List Char)
  | 0, _, _ => none
  | fuel + 1, cs, acc =>
    match skipWs cs with
    | '"' :: rest =>
      match parseStringRest [] rest with
      | none => none
      | some (k, rest2) =>
        match skipWs rest2 with
        | ':' :: rest3 =>
          match parseVal fuel rest3 with
          | none => none
          | some (v, rest4) =>
            match skipWs rest4 with
            | ',' :: rest5 => parseMembers fuel rest5 ((k, v) :: acc)
            | '}' :: rest5 => some (Json.obj ((k, v) :: acc).reverse, rest5)
            | _ => none
        | _ => none
    | _ => none

end

/-- `JSON.parse`: parse a complete JSON document; anything but a single
value surrounded by whitespace fails (in the source, a failure here is a
thrown exception caught by the surrounding try block). -/
def jsonParse (s : String) : Option Json :=
  match parseVal (2 * s.toList.length + 2) s.toList with
  | some (j, rest) =>
    match skipWs rest with
    | [] => some j
    | _ => none
  | none => none

/-! ## JavaScript string primitives

`generatedText.replace(/```json/g, '').replace(/```/g, '').replace(/\n/g, '').trim()`,
`indexOf`, `lastIndexOf` and `slice` from lines 50-59 of the source. -/

/-- Strip `pat` from the front of the list, if it is a prefix. -/
def stripPrefixChars : List Char → List Char → Option (List Char)
  | [], cs => some cs
  | _ :: _, [] => none
  | p :: ps, c :: cs => if c = p then stripPrefixChars ps cs else none

/-- Left-to-right, non-overlapping replacement of every occurrence of `pat`
by `repl`, as `String.prototype.replace` with a global constant regex does.
Fueled so that the recursion is structural; the top-level wrapper passes
enough fuel for any input (the pattern is never empty in this program). -/
def replaceAllFuel (pat repl : List Char) : Nat → List Char → List Char
  | _, [] => []
  | 0, cs => cs
  | fuel + 1, c :: cs =>
    match stripPrefixChars pat (c :: cs) with
    | some rest => repl ++ replaceAllFuel pat repl fuel rest
    | none => c :: replaceAllFuel pat repl fuel cs

/-- `s.replace(/pat/g, repl)` for a constant pattern `pat`. -/
def jsReplace (s pat repl : String) : String :=
  String.mk (replaceAllFuel pat.toList repl.toList (s.toList.length + 1) s.toList)

/-- `s.trim()`: drop whitespace from both ends. -/
def jsTrim (s : String) : String :=
  String.mk (((s.toList.dropWhile isJsonWs).reverse.dropWhile isJsonWs).reverse)

/-- `s.indexOf(c)`: index of the first occurrence, `-1` if absent. -/
def jsIndexOf (cs : List Char) (c : Char) : Int :=
  match cs.findIdx? (· = c) with
  | some i => (i : Int)
  | none => -1

/-- `s.lastIndexOf(c)`: index of the last occurrence, `-1` if absent. -/
def jsLastIndexOf (cs : List Char) (c : Char) : Int :=
  match cs.reverse.findIdx? (· = c) with
  | some i => ((cs.length : Int) - 1 - (i : Int))
  | none => -1

/-- `String.prototype.slice(start, stop)` with JavaScript index semantics:
negative indices count from the end, both are clamped into `[0, length]`,
and an empty string results when `start ≥ stop` after clamping. -/
def jsSlice (cs : List Char) (start stop : Int) : List Char :=
  let len : Int := (cs.length : Int)
  let a := if start < 0 then max (len + start) 0 else min start len
  let b := if stop < 0 then max (len + stop) 0 else min stop len
  (cs.take b.toNat).drop a.toNat

/-! ## Preference Extractor (`processUserInput`, lines 19-76) -/

/-- One `part` of a Gemini candidate content. -/
structure GeminiPart where
  text : String

/-- The `content` of a Gemini candidate. -/
structure GeminiContent where
  parts : List GeminiPart

/-- One entry of the `candidates` array of a Gemini response body. -/
structure GeminiCandidate where
  content : GeminiContent

/-- The body (`response.data`) of a Gemini response. -/
structure GeminiData where
  candidates : List GeminiCandidate

/-- An axios response from the generative endpoint. -/
structure GeminiResponse where
  data : GeminiData

/-- An error raised by the HTTP transport of the generative call. -/
structure GeminiError where
  message : String

/-- Line 47: `response.data.candidates[0].content.parts[0].text`.  Indexing
an empty array yields `undefined` and the subsequent property access throws,
which the catch block absorbs; that failure is `none` here. -/
def geminiGeneratedText (response : GeminiResponse) : Option String :=
  match response.data.candidates with
  | [] => none
  | cand :: _ =>
    match cand.content.parts with
    | [] => none
    | part :: _ => some part.text

/-- Lines 50-54: strip Markdown code fences and newlines, then trim. -/
def cleanGeminiText (generatedText : String) : String :=
  jsTrim (jsReplace (jsReplace (jsReplace generatedText "```json" "") "```" "") "\n" "")

/-- Lines 57-59: `slice` from the first brace to just past the last brace
(with JavaScript `indexOf`/`lastIndexOf` returning `-1` when absent). -/
def extractJsonStr (generatedText : String) : String :=
  let cs := generatedText.toList
  let start := jsIndexOf cs '{'
  let stop := jsLastIndexOf cs '}' + 1
  String.mk (jsSlice cs start stop)

/-- Lines 68-74: the fixed fallback preference record returned by the catch
block, as the JSON object it denotes. -/
def fallbackPreferencesJson : Json :=
  Json.obj
    [("categories", Json.arr [Json.str "food", Json.str "culture", Json.str "nature"]),
     ("location", Json.str "Montreal"),
     ("duration", Json.num 3),
     ("pace", Json.str "high"),
     ("budget", Json.str "high")]

/-- Lines 19-76, `processUserInput`: the generative HTTP call is the oracle
argument `geminiCall`; on transport error, on failure of the
`candidates[0] ... parts[0].text` access chain, or on `JSON.parse` failure,
the catch block returns the fallback record; otherwise the parsed value is
returned as-is. -/
def processUserInput (geminiCall : Except GeminiError GeminiResponse) : Json :=
  match geminiCall with
  | Except.error _ => fallbackPreferencesJson
  | Except.ok response =>
    match geminiGeneratedText response with
    | none => fallbackPreferencesJson
    | some generatedText =>
      match jsonParse (extractJsonStr (cleanGeminiText generatedText)) with
      | some value => value
      | none => fallbackPreferencesJson

/-- A Gemini response whose single candidate carries the given text. -/
def mkGeminiResponse (text : String) : GeminiResponse :=
  ⟨⟨[⟨⟨[⟨text⟩]⟩⟩]⟩⟩

/-! ## Place Search Client (`searchPlaces`, lines 85-106) -/

/-- The query parameters of one places-search request (line 126-131). -/
structure SearchParams where
  query : String
  near : String
  limit : Nat
  sort : String
deriving DecidableEq

/-- The body (`response.data`) of a places-search response; `results` is a
list of opaque venue records, kept as raw JSON values (their structure is
owned by the external API). -/
structure FsqData where
  results : List Json

/-- An axios response from the places-search endpoint. -/
structure FsqResponse where
  data : FsqData

/-- An error raised by the HTTP transport of the places-search call. -/
structure FsqError where
  message : String

/-- Lines 85-106, `searchPlaces`: the HTTP call is the oracle argument
`http`; on success the `results` field of the body is returned, on failure
the error is logged and re-thrown (not swallowed). -/
def searchPlaces (http : SearchParams → Except FsqError FsqResponse)
    (params : SearchParams) : Except FsqError (List Json) :=
  match http params with
  | Except.ok response => Except.ok response.data.results
  | Except.error e => Except.error e

/-! ## Itinerary Builder (`generateTrip`, lines 118-157) -/

/-- The structured preference record extracted by the Extractor, with the
shape the rest of the pipeline reads (`categories`, `location`, `duration`;
`pace` and `budget` are carried but never read by the Builder). -/
structure TripPreferences where
  categories : List String
  location : String
  duration : Nat
  pace : String
  budget : String

/-- JavaScript truthiness of a parsed JSON value, as tested by
`.filter(Boolean)`: `null`, `false`, `0` and the empty string are falsy. -/
def truthy : Json → Bool
  | Json.null => false
  | Json.bool b => b
  | Json.num n => !(n == 0)
  | Json.str s => !(s == "")
  | Json.arr _ => true
  | Json.obj _ => true

/-- The effect of `.filter(Boolean)` on one mapped entry: `undefined`
(`none`) and falsy places are dropped, truthy places kept. -/
def keepTruthy : Option Json → Option Json
  | none => none
  | some p => if truthy p then some p else none

/-- Line 143: `categoryPlaces[i % categoryPlaces.length]`.  On an empty
list, `i % 0` is `NaN` in JavaScript and indexing yields `undefined`
(`none` here); otherwise the element at `i` modulo the length. -/
def pickPlace (categoryPlaces : List Json) (i : Nat) : Option Json :=
  if categoryPlaces.length = 0 then none
  else categoryPlaces[i % categoryPlaces.length]?

/-- One day of the itinerary (lines 139-145). -/
structure ItineraryDay where
  day : Nat
  places : List Json

/-- The value returned by `generateTrip` (lines 148-151). -/
structure TripPlan where
  preferences : TripPreferences
  itinerary : List ItineraryDay

/-- Lines 139-145: `Array.from` with length `duration` builds one entry per
day index `i`, numbered `i + 1`, whose places are one pick per category
with `undefined` and falsy picks filtered out by `.filter(Boolean)`. -/
def buildItinerary (duration : Nat) (placesResults : List (List Json)) :
    List ItineraryDay :=
  (List.range duration).map fun i =>
    { day := i + 1,
      places := (placesResults.map fun categoryPlaces =>
        pickPlace categoryPlaces i).filterMap keepTruthy }

/-- `Promise.all` over already-settled computations: the list of all values
if every call succeeded, otherwise a failure. -/
def promiseAll {ε α : Type} : List (Except ε α) → Except ε (List α)
  | [] => Except.ok []
  | t :: ts =>
    match t with
    | Except.error e => Except.error e
    | Except.ok v =>
      match promiseAll ts with
      | Except.error e => Except.error e
      | Except.ok vs => Except.ok (v :: vs)

/-- The search parameters generateTrip builds for one category
(lines 126-131). -/
def searchParamsFor (prefs : TripPreferences) (category : String) : SearchParams :=
  { query := category, near := prefs.location, limit := 5, sort := "RATING" }

/-- Lines 118-157, `generateTrip`, with the preference-extraction step
factored out: `prefs` is the record obtained from `processUserInput` (the
source reads its fields `categories`, `location` and `duration`), and
`http` is the places-search transport oracle.  One search per category is
issued, `Promise.all` joins them (first failure aborts; the catch block
logs and re-throws), and on success the day-by-day itinerary is built. -/
def generateTrip (http : SearchParams → Except FsqError FsqResponse)
    (prefs : TripPreferences) : Except FsqError TripPlan :=
  let placesPromises := prefs.categories.map fun category =>
    searchPlaces http { query := category, near := prefs.location, limit := 5, sort := "RATING" }
  match promiseAll placesPromises with
  | Except.error e => Except.error e
  | Except.ok placesResults =>
    Except.ok { preferences := prefs, itinerary := buildItinerary prefs.duration placesResults }

/-! ## Spec-side TripPreferences shape

The spec describes `TripPreferences` as: `categories` a sequence of
strings, `location` a string, `duration` a positive integer, `pace` and
`budget` one of low/medium/high.  The following decidable predicate follows
those words; it is the spec-side yardstick used to settle the claim that the
Extractor's result always has this shape. -/

/-- First binding of a key in a parsed JSON object (the claims never
involve duplicate keys, where JavaScript objects keep the last). -/
def jsonLookup : List (String × Json) → String → Option Json
  | [], _ => none
  | (k, v) :: rest, key => if k = key then some v else jsonLookup rest key

/-- Every element is a JSON string. -/
def isStringArray : List Json → Bool
  | [] => true
  | Json.str _ :: rest => isStringArray rest
  | _ => false

/-- Membership in the low/medium/high enumeration of the spec. -/
def isLevelEnum (s : String) : Bool :=
  s = "low" || s = "medium" || s = "high"

/-- Follows the spec words for the TripPreferences shape: categories is a
sequence of strings, location a string, duration a positive integer, pace
and budget in the low/medium/high enumeration. -/
def conformsTripPreferences : Json → Bool
  | Json.obj fields =>
    (match jsonLookup fields "categories" with
     | some (Json.arr elems) => isStringArray elems
     | _ => false) &&
    (match jsonLookup fields "location" with
     | some (Json.str _) => true
     | _ => false) &&
    (match jsonLookup fields "duration" with
     | some (Json.num n) => decide (1 ≤ n)
     | _ => false) &&
    (match jsonLookup fields "pace" with
     | some (Json.str s) => isLevelEnum s
     | _ => false) &&
    (match jsonLookup fields "budget" with
     | some (Json.str s) => isLevelEnum s
     | _ => false)
  | _ => false

/-! ## Claims about the Preference Extractor -/

/-- C1: `processUserInput` never throws (it is a total function of the
outcome of the generative call), and whenever the HTTP call fails, the
`candidates[0] ... parts[0].text` extraction fails, or the JSON parse of the
cleaned text fails - in particular when the text holds no brace pair or
truncated JSON - it returns exactly the fixed fallback record (categories
food/culture/nature, location Montreal, duration 3, pace high, budget
high). -/
theorem extractor_returns_fallback_on_any_failure
    (geminiCall : Except GeminiError GeminiResponse)
    (h : ∀ response, geminiCall = Except.ok response →
      ∀ generatedText, geminiGeneratedText response = some generatedText →
        jsonParse (extractJsonStr (cleanGeminiText generatedText)) = none) :
    processUserInput geminiCall = fallbackPreferencesJson := by
  cases geminiCall with
  | error e => rfl
  | ok response =>
    simp only [processUserInput]
    cases hg : geminiGeneratedText response with
    | none => rfl
    | some generatedText => simp [h response rfl generatedText hg]

/-- Witness for C1: the fallback is returned on a transport error, on a
response with no brace pair, and on a response with truncated JSON. -/
theorem extractor_returns_fallback_on_any_failure_witness :
    processUserInput (Except.error ⟨"network down"⟩) = fallbackPreferencesJson ∧
    processUserInput (Except.ok (mkGeminiResponse "no json at all")) = fallbackPreferencesJson ∧
    processUserInput (Except.ok (mkGeminiResponse "\x7b\"categories\": [\"food\"")) =
      fallbackPreferencesJson :=
  ⟨extractor_returns_fallback_on_any_failure _ (fun response hresp => by cases hresp),
   extractor_returns_fallback_on_any_failure _ (fun response hresp t ht => by
     cases hresp; cases ht; rfl),
   extractor_returns_fallback_on_any_failure _ (fun response hresp t ht => by
     cases hresp; cases ht; rfl)⟩

/-- C5 counterexample: the claim that every value `processUserInput`
returns conforms to the TripPreferences shape fails when the generative
response parses but is not of that shape: on the response text consisting
of an empty JSON object the function returns that empty object, which has
none of the required fields. -/
theorem extractor_result_may_violate_shape :
    processUserInput (Except.ok (mkGeminiResponse "\x7b\x7d")) = Json.obj [] ∧
    conformsTripPreferences (Json.obj []) = false :=
  ⟨rfl, rfl⟩

/-- C5 (amended): `processUserInput` never raises, and on any failure it
returns the fallback record, which does conform to the TripPreferences
shape; but a successfully parsed response value is returned as-is, with no
shape validation, so it need not conform. -/
theorem extractor_no_shape_validation (response : GeminiResponse)
    (generatedText : String) (value : Json)
    (ht : geminiGeneratedText response = some generatedText)
    (hparse : jsonParse (extractJsonStr (cleanGeminiText generatedText)) = some value) :
    processUserInput (Except.ok response) = value ∧
    conformsTripPreferences fallbackPreferencesJson = true := by
  refine ⟨?_, rfl⟩
  simp only [processUserInput, ht, hparse]

/-- Witness for the amended C5: a parsed object with a zero duration is
returned unchanged (and does not conform, while the fallback does). -/
theorem extractor_no_shape_validation_witness :
    processUserInput (Except.ok (mkGeminiResponse "\x7b\"duration\": 0\x7d")) =
      Json.obj [("duration", Json.num 0)] ∧
    conformsTripPreferences fallbackPreferencesJson = true :=
  extractor_no_shape_validation _ _ _ rfl rfl

/-- The fenced response text of claim C6. -/
def fencedGeminiText : String :=
  "```json\n\x7b\"categories\":[\"a\"],\"location\":\"X\",\"duration\":1,\"pace\":\"low\",\"budget\":\"low\"\x7d\n```"

/-- C6: the cleanup of the generative response removes the Markdown fences
and every newline before the brace-to-brace extraction, so the fenced
response wrapping the exact object of the claim parses to exactly that
object. -/
theorem extractor_strips_fences_and_newlines :
    cleanGeminiText fencedGeminiText =
      "\x7b\"categories\":[\"a\"],\"location\":\"X\",\"duration\":1,\"pace\":\"low\",\"budget\":\"low\"\x7d" ∧
    processUserInput (Except.ok (mkGeminiResponse fencedGeminiText)) =
      Json.obj
        [("categories", Json.arr [Json.str "a"]),
         ("location", Json.str "X"),
         ("duration", Json.num 1),
         ("pace", Json.str "low"),
         ("budget", Json.str "low")] :=
  ⟨rfl, rfl⟩

/-! ## Helper lemmas for the Builder claims -/

theorem searchPlaces_ok (http : SearchParams → Except FsqError FsqResponse)
    (resp : SearchParams → FsqResponse) (hok : ∀ p, http p = Except.ok (resp p))
    (params : SearchParams) :
    searchPlaces http params = Except.ok (resp params).data.results := by
  simp [searchPlaces, hok]

theorem promiseAll_map_ok {α β : Type} {ε : Type} (g : α → Except ε β) (res : α → β)
    (h : ∀ a, g a = Except.ok (res a)) :
    ∀ l : List α, promiseAll (l.map g) = Except.ok (l.map res)
  | [] => rfl
  | x :: xs => by
    simp [promiseAll, h x, promiseAll_map_ok g res h xs]

theorem promiseAll_error_of_mem {α β : Type} {ε : Type} (g : α → Except ε β)
    (l : List α) (a : α) (e : ε) (ha : a ∈ l) (he : g a = Except.error e) :
    ∃ e2, promiseAll (l.map g) = Except.error e2 := by
  induction l with
  | nil => cases ha
  | cons x xs ih =>
    cases hgx : g x with
    | error e2 => exact ⟨e2, by simp [promiseAll, hgx]⟩
    | ok v =>
      have ha2 : a ∈ xs := by
        rcases List.mem_cons.mp ha with h1 | h2
        · subst h1; rw [he] at hgx; cases hgx
        · exact h2
      obtain ⟨e2, hp⟩ := ih ha2
      exact ⟨e2, by simp [promiseAll, hgx, hp]⟩

/-- When every places-search call succeeds, `generateTrip` succeeds and its
itinerary is built from the per-category result lists, in category order. -/
theorem generateTrip_all_ok (http : SearchParams → Except FsqError FsqResponse)
    (resp : SearchParams → FsqResponse) (hok : ∀ p, http p = Except.ok (resp p))
    (prefs : TripPreferences) :
    generateTrip http prefs = Except.ok
      { preferences := prefs,
        itinerary := buildItinerary prefs.duration
          (prefs.categories.map fun category =>
            (resp (searchParamsFor prefs category)).data.results) } := by
  simp only [generateTrip]
  rw [show (fun category => searchPlaces http
        { query := category, near := prefs.location, limit := 5, sort := "RATING" }) =
      (fun category => searchPlaces http (searchParamsFor prefs category)) from rfl]
  rw [promiseAll_map_ok (fun category => searchPlaces http (searchParamsFor prefs category))
    (fun category => (resp (searchParamsFor prefs category)).data.results)
    (fun category => searchPlaces_ok http resp hok _) prefs.categories]

theorem buildItinerary_length (duration : Nat) (placesResults : List (List Json)) :
    (buildItinerary duration placesResults).length = duration := by
  simp [buildItinerary]

theorem buildItinerary_get (duration : Nat) (placesResults : List (List Json))
    (i : Nat) (h : i < (buildItinerary duration placesResults).length) :
    (buildItinerary duration placesResults).get ⟨i, h⟩ =
      { day := i + 1,
        places := (placesResults.map fun categoryPlaces =>
          pickPlace categoryPlaces i).filterMap keepTruthy } := by
  simp [buildItinerary, List.get_eq_getElem]

/-- The places of day `i` are the per-category round-robin picks, in the
order of `prefs.categories`, with undefined and falsy picks dropped. -/
theorem generateTrip_day_places (http : SearchParams → Except FsqError FsqResponse)
    (resp : SearchParams → FsqResponse) (hok : ∀ p, http p = Except.ok (resp p))
    (prefs : TripPreferences) (plan : TripPlan)
    (hplan : generateTrip http prefs = Except.ok plan)
    (i : Nat) (hi : i < plan.itinerary.length) :
    (plan.itinerary.get ⟨i, hi⟩).places =
      prefs.categories.filterMap fun category =>
        keepTruthy (pickPlace (resp (searchParamsFor prefs category)).data.results i) := by
  rw [generateTrip_all_ok http resp hok prefs] at hplan
  injection hplan with h
  subst h
  rw [buildItinerary_get]
  rw [List.map_map, List.filterMap_map]
  rfl

theorem keepTruthy_some_truthy (o : Option Json) (p : Json)
    (h : keepTruthy o = some p) : truthy p = true := by
  cases o with
  | none => cases h
  | some q =>
    by_cases hq : truthy q
    · simp [keepTruthy, hq] at h; rw [← h]; exact hq
    · simp [keepTruthy, hq] at h

/-! ## Claims about the Itinerary Builder -/

/-- C2: when every per-category place search succeeds, `generateTrip`
returns a plan whose itinerary has exactly `duration` days (an empty
sequence when the duration is 0), whose day at 0-based index `k` carries
day number `k + 1`, and whose days each hold at most one place per
category. -/
theorem builder_itinerary_shape (http : SearchParams → Except FsqError FsqResponse)
    (resp : SearchParams → FsqResponse) (prefs : TripPreferences)
    (hok : ∀ p, http p = Except.ok (resp p)) :
    ∃ plan, generateTrip http prefs = Except.ok plan ∧
      plan.itinerary.length = prefs.duration ∧
      (∀ k (hk : k < plan.itinerary.length), (plan.itinerary.get ⟨k, hk⟩).day = k + 1) ∧
      (∀ d, d ∈ plan.itinerary → d.places.length ≤ prefs.categories.length) := by
  refine ⟨_, generateTrip_all_ok http resp hok prefs, ?_, ?_, ?_⟩
  · exact buildItinerary_length _ _
  · intro k hk
    rw [buildItinerary_get]
  · intro d hd
    simp only [buildItinerary, List.mem_map] at hd
    obtain ⟨i, hi, rfl⟩ := hd
    exact (List.length_filterMap_le _ _).trans (by simp)

/-- C3: for a day at 0-based index `i`, the pick from a non-empty category
result list is exactly its element at index `i` modulo the list length, and
when every search succeeds each day's places are assembled from exactly
those picks (claim example: lengths 3 and 5, duration 6, day index 4 picks
indices 1 and 4 - checked in the witness). -/
theorem builder_round_robin_selection (http : SearchParams → Except FsqError FsqResponse)
    (resp : SearchParams → FsqResponse) (prefs : TripPreferences)
    (hok : ∀ p, http p = Except.ok (resp p)) :
    (∀ (categoryPlaces : List Json) (i : Nat) (hne : categoryPlaces ≠ []),
      pickPlace categoryPlaces i =
        some (categoryPlaces.get ⟨i % categoryPlaces.length,
          Nat.mod_lt i (List.length_pos.mpr hne)⟩)) ∧
    ∃ plan, generateTrip http prefs = Except.ok plan ∧
      ∀ i (hi : i < plan.itinerary.length),
        (plan.itinerary.get ⟨i, hi⟩).places =
          (prefs.categories.map fun category =>
            pickPlace (resp (searchParamsFor prefs category)).data.results i).filterMap
            keepTruthy := by
  constructor
  · intro categoryPlaces i hne
    have h0 : ¬ categoryPlaces.length = 0 := by
      simpa [List.length_eq_zero] using hne
    simp only [pickPlace, if_neg h0]
    rw [List.get_eq_getElem]
    exact List.getElem?_eq_getElem _
  · refine ⟨_, generateTrip_all_ok http resp hok prefs, ?_⟩
    intro i hi
    rw [List.filterMap_map]
    exact generateTrip_day_places http resp hok prefs _
      (generateTrip_all_ok http resp hok prefs) i hi

/-- C4: when the transport of one category's search fails, `searchPlaces`
re-raises that error, and `generateTrip` fails without producing any
itinerary. -/
theorem search_failure_aborts_trip (http : SearchParams → Except FsqError FsqResponse)
    (prefs : TripPreferences) (category : String) (e : FsqError)
    (hc : category ∈ prefs.categories)
    (hfail : http (searchParamsFor prefs category) = Except.error e) :
    searchPlaces http (searchParamsFor prefs category) = Except.error e ∧
    ∃ e2, generateTrip http prefs = Except.error e2 := by
  have hsp : searchPlaces http (searchParamsFor prefs category) = Except.error e := by
    simp [searchPlaces, hfail]
  refine ⟨hsp, ?_⟩
  obtain ⟨e2, hp⟩ := promiseAll_error_of_mem
    (fun c => searchPlaces http (searchParamsFor prefs c)) prefs.categories category e hc hsp
  refine ⟨e2, ?_⟩
  simp only [generateTrip]
  rw [show (fun c => searchPlaces http
        { query := c, near := prefs.location, limit := 5, sort := "RATING" }) =
      (fun c => searchPlaces http (searchParamsFor prefs c)) from rfl]
  rw [hp]

/-- C7: when every search succeeds and a requested category's result list
is empty, `generateTrip` still succeeds, that category's pick is undefined
on every day, and each day's places are the per-category picks with the
undefined and falsy ones dropped - so no day carries an entry for the empty
category. -/
theorem empty_results_contribute_nothing (http : SearchParams → Except FsqError FsqResponse)
    (resp : SearchParams → FsqResponse) (prefs : TripPreferences) (category : String)
    (hok : ∀ p, http p = Except.ok (resp p))
    (_hc : category ∈ prefs.categories)
    (hempty : (resp (searchParamsFor prefs category)).data.results = []) :
    (∃ plan, generateTrip http prefs = Except.ok plan) ∧
    (∀ i, pickPlace (resp (searchParamsFor prefs category)).data.results i = none) ∧
    (∀ plan, generateTrip http prefs = Except.ok plan →
      ∀ i (hi : i < plan.itinerary.length),
        (plan.itinerary.get ⟨i, hi⟩).places =
          prefs.categories.filterMap fun cat =>
            keepTruthy (pickPlace (resp (searchParamsFor prefs cat)).data.results i)) := by
  refine ⟨⟨_, generateTrip_all_ok http resp hok prefs⟩, ?_, ?_⟩
  · intro i
    rw [hempty]
    rfl
  · intro plan hplan i hi
    exact generateTrip_day_places http resp hok prefs plan hplan i hi

/-- C8: `generateTrip` issues exactly one places-search request per entry
of `preferences.categories`, with query the category, near the preferred
location, limit 5 and sort RATING; and on transport success `searchPlaces`
returns precisely the `results` field of the response body. -/
theorem one_request_per_category_params (http : SearchParams → Except FsqError FsqResponse)
    (prefs : TripPreferences) (params : SearchParams) (resp2 : FsqResponse)
    (hp : http params = Except.ok resp2) :
    (generateTrip http prefs =
      match promiseAll ((prefs.categories.map fun category =>
          searchParamsFor prefs category).map (searchPlaces http)) with
      | Except.error e => Except.error e
      | Except.ok placesResults =>
        Except.ok ⟨prefs, buildItinerary prefs.duration placesResults⟩) ∧
    (∀ category, searchParamsFor prefs category =
      { query := category, near := prefs.location, limit := 5, sort := "RATING" }) ∧
    searchPlaces http params = Except.ok resp2.data.results := by
  refine ⟨?_, fun category => rfl, ?_⟩
  · rw [List.map_map]
    rfl
  · simp [searchPlaces, hp]

/-- C9: within every day, the places appear in the order of
`preferences.categories`: the day's sequence is the category-ordered
sequence of round-robin picks with the dropped (undefined or falsy) ones
removed, relative order preserved. -/
theorem day_places_follow_category_order (http : SearchParams → Except FsqError FsqResponse)
    (resp : SearchParams → FsqResponse) (prefs : TripPreferences)
    (hok : ∀ p, http p = Except.ok (resp p)) :
    ∃ plan, generateTrip http prefs = Except.ok plan ∧
      ∀ i (hi : i < plan.itinerary.length),
        (plan.itinerary.get ⟨i, hi⟩).places =
          prefs.categories.filterMap fun category =>
            keepTruthy (pickPlace (resp (searchParamsFor prefs category)).data.results i) :=
  ⟨_, generateTrip_all_ok http resp hok prefs,
    fun i hi => generateTrip_day_places http resp hok prefs _
      (generateTrip_all_ok http resp hok prefs) i hi⟩

/-- C10: every plan `generateTrip` returns has no falsy entry in any day's
places: a pick that is falsy (for instance a null stored in a non-empty
result list) is dropped by the Boolean filter rather than included. -/
theorem day_places_all_truthy (http : SearchParams → Except FsqError FsqResponse)
    (prefs : TripPreferences) (plan : TripPlan)
    (hplan : generateTrip http prefs = Except.ok plan) :
    (∀ d, d ∈ plan.itinerary → ∀ p, p ∈ d.places → truthy p = true) ∧
    (∀ p, truthy p = false → keepTruthy (some p) = none) := by
  constructor
  · intro d hd p hp
    simp only [generateTrip] at hplan
    split at hplan
    · cases hplan
    · injection hplan with h
      subst h
      simp only [buildItinerary, List.mem_map] at hd
      obtain ⟨i, hi, rfl⟩ := hd
      simp only [List.mem_filterMap] at hp
      obtain ⟨o, ho, hkeep⟩ := hp
      exact keepTruthy_some_truthy o p hkeep
  · intro p hp
    simp [keepTruthy, hp]

/-! ## Concrete fixtures for the Builder witnesses -/

/-- A venue record carrying the given name. -/
def placeOf (label : String) : Json :=
  Json.obj [("name", Json.str label)]

/-- A result list of length 3. -/
def resultsA : List Json :=
  [placeOf "a0", placeOf "a1", placeOf "a2"]

/-- A result list of length 5. -/
def resultsB : List Json :=
  [placeOf "b0", placeOf "b1", placeOf "b2", placeOf "b3", placeOf "b4"]

/-- Responses for the round-robin example: 3 food results, 5 others. -/
def respRoundRobin (p : SearchParams) : FsqResponse :=
  if p.query = "food" then ⟨⟨resultsA⟩⟩ else ⟨⟨resultsB⟩⟩

/-- Preferences of the round-robin example: two categories, six days. -/
def prefsRoundRobin : TripPreferences :=
  ⟨["food", "culture"], "Montreal", 6, "high", "medium"⟩

/-- Preferences with a zero-day duration. -/
def prefsZeroDays : TripPreferences :=
  ⟨["food"], "Montreal", 0, "low", "low"⟩

/-- A transport that fails on the culture search only. -/
def httpFailCulture (p : SearchParams) : Except FsqError FsqResponse :=
  if p.query = "culture" then Except.error ⟨"HTTP 500"⟩ else Except.ok ⟨⟨resultsA⟩⟩

/-- Responses where the culture search finds nothing. -/
def respEmptyCulture (p : SearchParams) : FsqResponse :=
  if p.query = "culture" then ⟨⟨[]⟩⟩ else ⟨⟨resultsA⟩⟩

/-- Responses whose single result list stores a null before a real venue. -/
def respWithNull : SearchParams → FsqResponse :=
  fun _ => ⟨⟨[Json.null, placeOf "x"]⟩⟩

/-- Preferences with one category and two days. -/
def prefsTwoDays : TripPreferences :=
  ⟨["food"], "Montreal", 2, "low", "low"⟩

/-- The plan generateTrip produces from `respWithNull` and `prefsTwoDays`. -/
def planWithNullDropped : TripPlan :=
  { preferences := prefsTwoDays, itinerary := buildItinerary 2 [[Json.null, placeOf "x"]] }

/-! ## Witnesses for the Builder claims -/

/-- Witness for C2, at two categories and six days; the extra conjunct
checks the zero-duration edge case concretely. -/
theorem builder_itinerary_shape_witness :
    (∃ plan, generateTrip (fun p => Except.ok (respRoundRobin p)) prefsRoundRobin =
        Except.ok plan ∧
      plan.itinerary.length = prefsRoundRobin.duration ∧
      (∀ k (hk : k < plan.itinerary.length), (plan.itinerary.get ⟨k, hk⟩).day = k + 1) ∧
      (∀ d, d ∈ plan.itinerary → d.places.length ≤ prefsRoundRobin.categories.length)) ∧
    generateTrip (fun p => Except.ok (respRoundRobin p)) prefsZeroDays =
      Except.ok { preferences := prefsZeroDays, itinerary := [] } :=
  ⟨builder_itinerary_shape _ respRoundRobin prefsRoundRobin (fun _ => rfl), rfl⟩

/-- Witness for C3; the extra conjunct checks the claim example concretely:
result lists of lengths 3 and 5, duration 6, day index 4 picks the elements
at indices 1 and 4. -/
theorem builder_round_robin_selection_witness :
    ((∀ (categoryPlaces : List Json) (i : Nat) (hne : categoryPlaces ≠ []),
      pickPlace categoryPlaces i =
        some (categoryPlaces.get ⟨i % categoryPlaces.length,
          Nat.mod_lt i (List.length_pos.mpr hne)⟩)) ∧
    ∃ plan, generateTrip (fun p => Except.ok (respRoundRobin p)) prefsRoundRobin =
        Except.ok plan ∧
      ∀ i (hi : i < plan.itinerary.length),
        (plan.itinerary.get ⟨i, hi⟩).places =
          (prefsRoundRobin.categories.map fun category =>
            pickPlace (respRoundRobin
              (searchParamsFor prefsRoundRobin category)).data.results i).filterMap
            keepTruthy) ∧
    (buildItinerary 6 [resultsA, resultsB])[4]? =
      some ⟨5, [placeOf "a1", placeOf "b4"]⟩ :=
  ⟨builder_round_robin_selection _ respRoundRobin prefsRoundRobin (fun _ => rfl), rfl⟩

/-- Witness for C4: a transport failing on the culture search makes
`searchPlaces` re-raise and `generateTrip` fail. -/
theorem search_failure_aborts_trip_witness :
    searchPlaces httpFailCulture (searchParamsFor prefsRoundRobin "culture") =
      Except.error ⟨"HTTP 500"⟩ ∧
    ∃ e2, generateTrip httpFailCulture prefsRoundRobin = Except.error e2 :=
  search_failure_aborts_trip httpFailCulture prefsRoundRobin "culture" ⟨"HTTP 500"⟩
    (by decide) rfl

/-- Witness for C7: with an empty culture result list the trip still
builds and the culture pick is undefined on every day. -/
theorem empty_results_contribute_nothing_witness :
    (∃ plan, generateTrip (fun p => Except.ok (respEmptyCulture p)) prefsRoundRobin =
      Except.ok plan) ∧
    (∀ i, pickPlace (respEmptyCulture
      (searchParamsFor prefsRoundRobin "culture")).data.results i = none) ∧
    (∀ plan, generateTrip (fun p => Except.ok (respEmptyCulture p)) prefsRoundRobin =
        Except.ok plan →
      ∀ i (hi : i < plan.itinerary.length),
        (plan.itinerary.get ⟨i, hi⟩).places =
          prefsRoundRobin.categories.filterMap fun cat =>
            keepTruthy (pickPlace (respEmptyCulture
              (searchParamsFor prefsRoundRobin cat)).data.results i)) :=
  empty_results_contribute_nothing _ respEmptyCulture prefsRoundRobin "culture"
    (fun _ => rfl) (by decide) rfl

/-- Witness for C8, at a concrete transport and concrete parameters. -/
theorem one_request_per_category_params_witness :
    (generateTrip (fun p => Except.ok (respRoundRobin p)) prefsRoundRobin =
      match promiseAll ((prefsRoundRobin.categories.map fun category =>
          searchParamsFor prefsRoundRobin category).map
          (searchPlaces (fun p => Except.ok (respRoundRobin p)))) with
      | Except.error e => Except.error e
      | Except.ok placesResults =>
        Except.ok ⟨prefsRoundRobin, buildItinerary prefsRoundRobin.duration placesResults⟩) ∧
    (∀ category, searchParamsFor prefsRoundRobin category =
      { query := category, near := prefsRoundRobin.location, limit := 5, sort := "RATING" }) ∧
    searchPlaces (fun p => Except.ok (respRoundRobin p)) ⟨"food", "Montreal", 5, "RATING"⟩ =
      Except.ok (respRoundRobin ⟨"food", "Montreal", 5, "RATING"⟩).data.results :=
  one_request_per_category_params _ prefsRoundRobin ⟨"food", "Montreal", 5, "RATING"⟩
    (respRoundRobin ⟨"food", "Montreal", 5, "RATING"⟩) rfl

/-- Witness for C9. -/
theorem day_places_follow_category_order_witness :
    ∃ plan, generateTrip (fun p => Except.ok (respRoundRobin p)) prefsRoundRobin =
        Except.ok plan ∧
      ∀ i (hi : i < plan.itinerary.length),
        (plan.itinerary.get ⟨i, hi⟩).places =
          prefsRoundRobin.categories.filterMap fun category =>
            keepTruthy (pickPlace (respRoundRobin
              (searchParamsFor prefsRoundRobin category)).data.results i) :=
  day_places_follow_category_order _ respRoundRobin prefsRoundRobin (fun _ => rfl)

/-- Witness for C10; the extra conjunct checks concretely that the null
stored in the result list is dropped from day 1 and the real venue kept on
day 2. -/
theorem day_places_all_truthy_witness :
    ((∀ d, d ∈ planWithNullDropped.itinerary → ∀ p, p ∈ d.places → truthy p = true) ∧
     (∀ p, truthy p = false → keepTruthy (some p) = none)) ∧
    buildItinerary 2 [[Json.null, placeOf "x"]] = [⟨1, []⟩, ⟨2, [placeOf "x"]⟩] :=
  ⟨day_places_all_truthy (fun p => Except.ok (respWithNull p)) prefsTwoDays
    planWithNullDropped rfl, rfl⟩

end CallFoursquare
